import Mathlib

/-!
Shallow embedding of the hackathon-backend error taxonomy and health
endpoints.

Sources under src/:
- `app/exceptions/client_initialization_error.py` (the variant constructor)
- `app/exceptions/__init__.py` (re-exports)
- `app/api/v1/endpoints/base.py` (the `ping` and `health` endpoints)
- `app/api/v1/router.py` (routing only)

Files referenced by the code but not present under src/ are modelled from
the spec and marked as such: `app/enums/error_codes.py` (the ErrorCodes
registry), `app/exceptions/core_exception.py` (CoreError), the
`PingResponse` DTO, and `settings.service_start_time` (taken here as an
abstract integer parameter).
-/

/-- Modelled from the spec: the ErrorCodes registry
(`app/enums/error_codes.py` is not under src/). A closed enumerated set of
symbolic identifiers; the only member named by the source in src/ is
`CLIENT_INITIALIZATION_ERROR`. -/
inductive ErrorCodes where
  | CLIENT_INITIALIZATION_ERROR
  deriving DecidableEq

/-- Modelled from the spec: each registry member maps to a stable primitive
value usable for cross-service identification. -/
def ErrorCodes.value : ErrorCodes → String
  | .CLIENT_INITIALIZATION_ERROR => "CLIENT_INITIALIZATION_ERROR"

/-- Modelled from the spec: the member name of each registry entry, as used
for lookup-by-name. -/
def ErrorCodes.memberName : ErrorCodes → String
  | .CLIENT_INITIALIZATION_ERROR => "CLIENT_INITIALIZATION_ERROR"

/-- Modelled from the spec: lookup-by-name over the closed registry. -/
def ErrorCodes.lookupName (n : String) : Option ErrorCodes :=
  if n = "CLIENT_INITIALIZATION_ERROR" then
    some ErrorCodes.CLIENT_INITIALIZATION_ERROR
  else
    none

/-- A foreign lower-level error value (a Python `Exception` instance) as the
taxonomy sees it: the only capability the code uses is its string
representation, `str(e)`. -/
structure PyException where
  strRepr : String
  deriving DecidableEq

/-- The `Exception | str` input domain of
`ClientInitializationError.__init__` in
src/app/exceptions/client_initialization_error.py. -/
inductive DetailsInput where
  | ofStr (s : String)
  | ofExc (e : PyException)
  deriving DecidableEq

/-- Python `str()` applied to a `DetailsInput`: a string maps to itself, an
exception instance to its string representation. -/
def DetailsInput.str : DetailsInput → String
  | .ofStr s => s
  | .ofExc e => e.strRepr

/-- Modelled from the spec: `CoreError`
(`app/exceptions/core_exception.py` is not under src/). The base error
value holding a human message, a machine code and optional diagnostic
details. -/
structure CoreError where
  message : String
  code : ErrorCodes
  details : Option String
  deriving DecidableEq

/-- Modelled from the spec: the CoreError construction contract
`CoreError(message, code, details = absent)`; always succeeds and sets the
three fields, details defaulting to absent. -/
def CoreError.init (message : String) (code : ErrorCodes)
    (details : Option String := none) : CoreError :=
  { message := message, code := code, details := details }

/-- The base capability set `{message, code, details}` that a
variant-agnostic consumer reads from any error of the taxonomy. -/
structure CoreErrorView where
  message : String
  code : ErrorCodes
  details : Option String
  deriving DecidableEq

/-- Reading an error through the base capability set only. -/
def CoreError.view (e : CoreError) : CoreErrorView :=
  { message := e.message, code := e.code, details := e.details }

/-- `ClientInitializationError.__init__` from
src/app/exceptions/client_initialization_error.py: calls
`super().__init__("The client initialization failed.",
ErrorCodes.CLIENT_INITIALIZATION_ERROR, details=str(details))`. The
resulting instance is a CoreError (the class extends CoreError and adds
nothing). -/
def ClientInitializationError.init (details : DetailsInput) : CoreError :=
  CoreError.init "The client initialization failed."
    ErrorCodes.CLIENT_INITIALIZATION_ERROR (some details.str)

/-- The construction path of `ClientInitializationError.__init__` written
as a fallible computation: each step of the body (`str(details)`, then the
base constructor call) is a bind in `Except`, mirroring that the source has
no raise statement on this path. -/
def ClientInitializationError.tryInit (d : DetailsInput) :
    Except String CoreError := do
  let s ← Except.ok d.str
  Except.ok (CoreError.init "The client initialization failed."
    ErrorCodes.CLIENT_INITIALIZATION_ERROR (some s))

/-- The response value of the `ping` endpoint in
src/app/api/v1/endpoints/base.py (the `PingResponse` DTO definition is not
under src/; its fields are those assigned by `ping` and required by the
spec contract: status token, integer uptime, integer epoch timestamp). -/
structure PingResponse where
  status : String
  uptime : Int
  timestamp : Int
  deriving DecidableEq

/-- The `ping` endpoint body from src/app/api/v1/endpoints/base.py:
`now = int(time.time())`, `uptime = now - int(settings.service_start_time)`,
returning `PingResponse(status="ok", uptime=uptime, timestamp=now)`. The
fixed service start time and the sampled current time are the two integer
inputs. -/
def ping (service_start_time : Int) (now : Int) : PingResponse :=
  { status := "ok", uptime := now - service_start_time, timestamp := now }

/-- The `health` endpoint body from src/app/api/v1/endpoints/base.py:
`return {"status": "ok"}`, a single-entry mapping modelled as an
association list. -/
def health : List (String × String) := [("status", "ok")]

/-- C1: for every input d (plain string or lower-level exception instance),
`ClientInitializationError(d)` has message "The client initialization
failed.", code CLIENT_INITIALIZATION_ERROR, and details equal to str(d):
the string itself for a string input, the stringified form for an
exception instance. -/
theorem clientInitializationError_fields (d : DetailsInput) :
    (ClientInitializationError.init d).message =
        "The client initialization failed." ∧
    (ClientInitializationError.init d).code =
        ErrorCodes.CLIENT_INITIALIZATION_ERROR ∧
    (ClientInitializationError.init d).details = some d.str ∧
    (∀ s : String,
      (ClientInitializationError.init (DetailsInput.ofStr s)).details =
        some s) ∧
    (∀ e : PyException,
      (ClientInitializationError.init (DetailsInput.ofExc e)).details =
        some e.strRepr) := by
  refine ⟨rfl, rfl, rfl, fun s => rfl, fun e => rfl⟩

/-- C2: every ClientInitializationError instance is a CoreError usable
through the base capability set alone: reading the view never loses
information (the variant adds no fields beyond the base contract, so the
view determines the instance), and the view of a constructed instance
exposes all three base fields with their fixed values. -/
theorem clientInitializationError_is_core_error (d : DetailsInput) :
    Function.Injective CoreError.view ∧
    (ClientInitializationError.init d).view =
      { message := "The client initialization failed.",
        code := ErrorCodes.CLIENT_INITIALIZATION_ERROR,
        details := some d.str } := by
  constructor
  · intro a b h
    cases a
    cases b
    simpa [CoreError.view, CoreErrorView.mk.injEq, CoreError.mk.injEq]
      using h
  · rfl

/-- C3: `CoreError(m, c)` with no details argument always succeeds and
yields message m, code c, details absent; `CoreError(m, c, details="x")`
yields details "x". -/
theorem coreError_construction (m : String) (c : ErrorCodes) :
    (CoreError.init m c).message = m ∧
    (CoreError.init m c).code = c ∧
    (CoreError.init m c).details = none ∧
    (∀ x : String, (CoreError.init m c (some x)).details = some x) := by
  refine ⟨rfl, rfl, rfl, fun x => rfl⟩

/-- C4: construction is total over the documented input domain: for every
input (string or exception instance), the fallible rendering of the
constructor body returns ok with the constructed error and never a
failure. -/
theorem clientInitializationError_total (d : DetailsInput) :
    ClientInitializationError.tryInit d =
      Except.ok (ClientInitializationError.init d) := by
  cases d <;> rfl

/-- C5: after construction, message and code of a CoreError are exactly the
construction-time arguments (present, fixed by the value itself, with no
mutating operation in the taxonomy), and wrapping a lower-level failure in
ClientInitializationError preserves the original information in details
(details is str(d), never dropped to absent). -/
theorem error_fields_preserved (d : DetailsInput) (m : String)
    (c : ErrorCodes) (x : Option String) :
    (ClientInitializationError.init d).details = some d.str ∧
    (ClientInitializationError.init d).details ≠ none ∧
    (CoreError.init m c x).message = m ∧
    (CoreError.init m c x).code = c ∧
    (CoreError.init m c x).details = x := by
  refine ⟨rfl, by simp [ClientInitializationError.init, CoreError.init],
    rfl, rfl, rfl⟩

/-- C6: registry values are globally unique (the value map is injective on
the closed set of members) and lookup is idempotent and stable: looking a
member up by its name always yields that member, hence the same value on
every retrieval. -/
theorem errorCodes_unique_stable :
    Function.Injective ErrorCodes.value ∧
    (∀ c : ErrorCodes, ErrorCodes.lookupName c.memberName = some c) ∧
    (∀ c : ErrorCodes,
      (ErrorCodes.lookupName c.memberName).map ErrorCodes.value =
        some c.value) := by
  refine ⟨?_, ?_, ?_⟩
  · intro a b _
    cases a
    cases b
    rfl
  · intro c
    cases c
    rfl
  · intro c
    cases c
    rfl

/-- C7: when the process started at epoch T0 and ping is called at epoch
T1 with T1 >= T0, the response has status "ok", uptime T1 - T0, and
timestamp T1. -/
theorem ping_liveness_scenario (t0 t1 : Int) (h : t0 ≤ t1) :
    (ping t0 t1).status = "ok" ∧
    (ping t0 t1).uptime = t1 - t0 ∧
    (ping t0 t1).timestamp = t1 := by
  exact ⟨rfl, rfl, rfl⟩

/-- Witness for C7 at T0 = 5, T1 = 7. -/
theorem ping_liveness_scenario_witness :
    (ping 5 7).status = "ok" ∧
    (ping 5 7).uptime = 7 - 5 ∧
    (ping 5 7).timestamp = 7 :=
  ping_liveness_scenario 5 7 (by decide)

/-- C8: the health endpoint response is exactly the single-entry mapping
from "status" to "ok": the key "status" maps to "ok", there is exactly one
entry, and "status" is the only key. -/
theorem health_exact_payload :
    List.lookup "status" health = some "ok" ∧
    health.length = 1 ∧
    health.map Prod.fst = ["status"] ∧
    ("status", "ok") ∈ health := by
  refine ⟨rfl, rfl, rfl, by simp [health]⟩

/-- C9: for every ping call made at or after the recorded service start
time (current time at the call is never before the start time recorded at
process start), the returned uptime is a non-negative integer number of
seconds, and the returned timestamp is the integer epoch-seconds sample of
the current time. -/
theorem ping_uptime_nonneg (t0 t1 : Int) (h : t0 ≤ t1) :
    0 ≤ (ping t0 t1).uptime ∧ (ping t0 t1).timestamp = t1 := by
  constructor
  · simp only [ping]
    omega
  · rfl

/-- Witness for C9 at T0 = 3, T1 = 10. -/
theorem ping_uptime_nonneg_witness :
    0 ≤ (ping 3 10).uptime ∧ (ping 3 10).timestamp = 10 :=
  ping_uptime_nonneg 3 10 (by decide)

/-- C10: for every ping response, the two numeric fields are linked by
timestamp - uptime = service_start_time: both derive from one sampled
current time and the fixed start time. -/
theorem ping_fields_linked (t0 t1 : Int) :
    (ping t0 t1).timestamp - (ping t0 t1).uptime = t0 := by
  simp only [ping]
  omega
